import Mathlib

/-!
Shallow embedding of `src/js/script.js` from the conference_registration
repository: a capability probe (`hasHtml5Validation`), a DOM-ready callback
that conditionally attaches a submit handler to the `#validate` form, and the
submit handler itself (captcha answer check, native validity check, CSS class
feedback).  DOM state is made explicit and every function is pure and
executable.
-/

namespace ConferenceRegistration

/-- The fixed expected captcha answer string from the source
(`"leopold2018"` in `script.js`). -/
def expectedAnswer : String := "leopold2018"

/-- The blocking alert message shown on a captcha mismatch
(`alert("Please enter correct answer!")` in `script.js`). -/
def captchaAlertMsg : String := "Please enter correct answer!"

/-- Whitespace as stripped by JavaScript `String.prototype.trim`
(restricted to the ASCII whitespace characters that can occur here). -/
def jsWhitespace (c : Char) : Bool :=
  c == ' ' || c == '\t' || c == '\n' || c == '\r' || c == '\x0b' || c == '\x0c'

/-- JavaScript `String.prototype.trim`: removes leading and trailing
whitespace. -/
def jsTrim (s : String) : String :=
  String.mk (((s.data.dropWhile jsWhitespace).reverse.dropWhile jsWhitespace).reverse)

/-- A submit event; `defaultPrevented` records whether `preventDefault`
has been called on it. -/
structure SubmitEvent where
  defaultPrevented : Bool
deriving Repr, DecidableEq

/-- `e.preventDefault()`: marks the event's default action as suppressed.
Once set, nothing ever clears the flag. -/
def preventDefault (e : SubmitEvent) : SubmitEvent :=
  { e with defaultPrevented := true }

/-- The mutable state of the form element that the handler touches:
its list of CSS classes. -/
structure FormState where
  classes : List String
deriving Repr, DecidableEq

/-- jQuery `addClass`: appends the class if it is not already present;
it never removes anything. -/
def addClass (cs : List String) (c : String) : List String :=
  if c ∈ cs then cs else cs ++ [c]

/-- Result of one run of the submit handler: the final event, the final
form state, and the alerts shown (in order). -/
structure HandlerResult where
  event : SubmitEvent
  form : FormState
  alerts : List String
deriving Repr, DecidableEq

/-- The submit handler bound to `#validate` in `script.js` (variant 1).
Inputs are the current value of the `#captcha` field, the form's aggregate
`checkValidity()` result, the incoming event and form state.

Mirrors the source line by line:
first `if ($("#captcha").val().trim() != "leopold2018") { alert(...);
e.preventDefault(); }`, then
`if (!this.checkValidity()) { e.preventDefault(); $(this).addClass('invalid') }
else { $(this).addClass('valid') }`. -/
def submitHandler (captchaVal : String) (formValid : Bool)
    (e : SubmitEvent) (form : FormState) : HandlerResult :=
  let alerts : List String :=
    if jsTrim captchaVal ≠ expectedAnswer then [captchaAlertMsg] else []
  let e1 : SubmitEvent :=
    if jsTrim captchaVal ≠ expectedAnswer then preventDefault e else e
  if !formValid then
    { event := preventDefault e1
      form := { classes := addClass form.classes "invalid" }
      alerts := alerts }
  else
    { event := e1
      form := { classes := addClass form.classes "valid" }
      alerts := alerts }

/-- A freshly constructed `<input>` element; the only property the script
probes is `typeof el.checkValidity`. -/
structure InputElement where
  checkValidityTypeof : String
deriving Repr, DecidableEq

/-- The `#validate` form element as seen at page level: whether the submit
handler has been bound to it, and its CSS classes. -/
structure FormElement where
  handlerAttached : Bool
  classes : List String
deriving Repr, DecidableEq

/-- Observable document state: what `document.createElement('input')`
yields, and the form element. -/
structure Document where
  freshInput : InputElement
  form : FormElement
deriving Repr, DecidableEq

/-- `document.createElement('input')`: yields a fresh, unattached input
element and leaves the document unchanged (the element is not inserted
into the tree). -/
def createElementInput (doc : Document) : InputElement × Document :=
  (doc.freshInput, doc)

/-- `hasHtml5Validation`: probes whether a newly constructed input element
exposes `checkValidity` as a function.  State-passing style so the frame
condition (no side effects) is expressible. -/
def hasHtml5Validation (doc : Document) : Bool × Document :=
  let p := createElementInput doc
  (p.1.checkValidityTypeof == "function", p.2)

/-- The DOM-ready callback: if the capability probe succeeds, binds the
submit handler to `#validate`; otherwise does nothing. -/
def readyCallback (doc : Document) : Document :=
  let p := hasHtml5Validation doc
  if p.1 then
    { p.2 with form := { p.2.form with handlerAttached := true } }
  else
    p.2

/-- What one submit attempt on the page produces: alerts shown, the final
document, and whether the native (default) form submission proceeds. -/
structure SubmitOutcome where
  alerts : List String
  doc : Document
  nativeSubmissionProceeds : Bool
deriving Repr, DecidableEq

/-- Dispatching a submit on the `#validate` form: if the handler is
attached it runs on a fresh event (`defaultPrevented = false`) and the
default action proceeds iff the handler did not prevent it; otherwise the
browser submits natively with no interception. -/
def dispatchSubmit (doc : Document) (captchaVal : String) (formValid : Bool) :
    SubmitOutcome :=
  if doc.form.handlerAttached then
    let r := submitHandler captchaVal formValid
      { defaultPrevented := false } { classes := doc.form.classes }
    { alerts := r.alerts
      doc := { doc with form := { doc.form with classes := r.form.classes } }
      nativeSubmissionProceeds := !r.event.defaultPrevented }
  else
    { alerts := [], doc := doc, nativeSubmissionProceeds := true }

/-- Modelled from the spec: the informational alert of the checkbox
variant (variant 2), whose script is not present under `src/`; the spec
only says it reminds the user of a manual action required at a later
step. -/
def payCashReminderMsg : String := "cash payment reminder"

/-- Modelled from the spec: the submit handler of the checkbox variant
(variant 2), whose script is not present under `src/`.  Per the spec it
runs Check B (native validity: on invalid, prevent default and add the
`invalid` class; on valid, add the `valid` class) and Check C (if the
designated checkbox `#pay_cash` is not checked, show a non-blocking
informational alert; this check never suppresses submission), all checks
running unconditionally in sequence. -/
def submitHandlerV2 (checkboxChecked : Bool) (formValid : Bool)
    (e : SubmitEvent) (form : FormState) : HandlerResult :=
  let r1 : SubmitEvent × FormState :=
    if !formValid then
      (preventDefault e, { classes := addClass form.classes "invalid" })
    else
      (e, { classes := addClass form.classes "valid" })
  let alerts : List String :=
    if !checkboxChecked then [payCashReminderMsg] else []
  { event := r1.1, form := r1.2, alerts := alerts }

/-! Helper lemmas about `addClass`. -/

theorem mem_addClass_self (cs : List String) (c : String) : c ∈ addClass cs c := by
  unfold addClass
  split
  · assumption
  · simp

theorem mem_addClass_of_mem (cs : List String) (c c' : String) (h : c ∈ cs) :
    c ∈ addClass cs c' := by
  unfold addClass
  split
  · exact h
  · simp [h]

/-! Claim theorems. -/

/-- C1: whenever the trimmed captcha value differs from the expected string
"leopold2018", the handler shows the blocking alert and calls
`preventDefault`, regardless of the native validity result and of the
incoming event and form state. -/
theorem captcha_mismatch_alerts_and_prevents
    (captchaVal : String) (formValid : Bool) (e : SubmitEvent) (form : FormState)
    (h : jsTrim captchaVal ≠ expectedAnswer) :
    captchaAlertMsg ∈ (submitHandler captchaVal formValid e form).alerts ∧
    (submitHandler captchaVal formValid e form).event.defaultPrevented = true := by
  unfold submitHandler
  cases formValid <;> simp [h, preventDefault]

/-- Witness for C1 at the concrete input "nope" on a natively valid form. -/
theorem captcha_mismatch_alerts_and_prevents_witness :
    jsTrim "nope" ≠ expectedAnswer ∧
    (captchaAlertMsg ∈ (submitHandler "nope" true ⟨false⟩ ⟨[]⟩).alerts ∧
      (submitHandler "nope" true ⟨false⟩ ⟨[]⟩).event.defaultPrevented = true) :=
  ⟨by decide,
    captcha_mismatch_alerts_and_prevents "nope" true ⟨false⟩ ⟨[]⟩ (by decide)⟩

/-- C2: whenever the native validity query returns false, the handler calls
`preventDefault` and the form afterwards carries the class "invalid". -/
theorem invalid_form_prevents_and_marks_invalid
    (captchaVal : String) (e : SubmitEvent) (form : FormState) :
    (submitHandler captchaVal false e form).event.defaultPrevented = true ∧
    "invalid" ∈ (submitHandler captchaVal false e form).form.classes := by
  unfold submitHandler
  simp [preventDefault, mem_addClass_self]

/-- C3: all checks run unconditionally in sequence — the class added by the
validity check does not depend on the captcha outcome, and the alert shown
by the captcha check does not depend on the validity outcome — and
suppression is cumulative: a previously prevented event stays prevented,
and a captcha mismatch keeps the event prevented even when native validity
passes. -/
theorem checks_sequential_and_suppression_cumulative
    (captchaVal : String) (formValid : Bool) (e : SubmitEvent) (form : FormState) :
    ((submitHandler captchaVal formValid e form).form.classes
        = addClass form.classes (if formValid then "valid" else "invalid")) ∧
    ((submitHandler captchaVal formValid e form).alerts
        = if jsTrim captchaVal ≠ expectedAnswer then [captchaAlertMsg] else []) ∧
    (e.defaultPrevented = true →
      (submitHandler captchaVal formValid e form).event.defaultPrevented = true) ∧
    (jsTrim captchaVal ≠ expectedAnswer →
      (submitHandler captchaVal true e form).event.defaultPrevented = true) := by
  unfold submitHandler
  refine ⟨?_, ?_, ?_, ?_⟩
  · cases formValid <;> simp
  · cases formValid <;> simp
  · intro he
    cases formValid <;> split <;> simp [preventDefault, he]
  · intro h
    simp [h, preventDefault]

/-- Witness for C3: a captcha mismatch on a natively valid form still gets
the "valid" class, yet the event stays prevented. -/
theorem checks_sequential_cumulative_witness :
    (submitHandler "wrong" true ⟨false⟩ ⟨[]⟩).form.classes = ["valid"] ∧
    (submitHandler "wrong" true ⟨false⟩ ⟨[]⟩).event.defaultPrevented = true := by
  have h := checks_sequential_and_suppression_cumulative "wrong" true ⟨false⟩ ⟨[]⟩
  refine ⟨?_, h.2.2.2 (by decide)⟩
  rw [h.1]
  decide

/-- C4: on a natively valid form whose trimmed captcha value equals the
expected string, starting from a fresh event, the handler adds the "valid"
class and does not prevent the default submit action. -/
theorem valid_form_and_captcha_pass
    (captchaVal : String) (form : FormState)
    (h : jsTrim captchaVal = expectedAnswer) :
    "valid" ∈ (submitHandler captchaVal true ⟨false⟩ form).form.classes ∧
    (submitHandler captchaVal true ⟨false⟩ form).event.defaultPrevented = false := by
  unfold submitHandler
  simp [h, mem_addClass_self]

/-- Witness for C4 at the exact expected answer. -/
theorem valid_form_and_captcha_pass_witness :
    jsTrim "leopold2018" = expectedAnswer ∧
    ("valid" ∈ (submitHandler "leopold2018" true ⟨false⟩ ⟨[]⟩).form.classes ∧
      (submitHandler "leopold2018" true ⟨false⟩ ⟨[]⟩).event.defaultPrevented = false) :=
  ⟨by decide, valid_form_and_captcha_pass "leopold2018" ⟨[]⟩ (by decide)⟩

/-- C5: whenever the trimmed captcha value equals the expected string, the
answer check shows no alert and never prevents the event: starting from a
fresh event, the default action ends up prevented exactly when native
validity fails. -/
theorem captcha_match_no_alert_only_validity_suppresses
    (captchaVal : String) (formValid : Bool) (form : FormState)
    (h : jsTrim captchaVal = expectedAnswer) :
    (submitHandler captchaVal formValid ⟨false⟩ form).alerts = [] ∧
    (submitHandler captchaVal formValid ⟨false⟩ form).event.defaultPrevented
      = !formValid := by
  unfold submitHandler
  cases formValid <;> simp [h, preventDefault]

/-- Witness for C5 on the spec scenario " leopold2018 " (surrounding
spaces) with native validity passing. -/
theorem captcha_match_no_alert_witness :
    jsTrim " leopold2018 " = expectedAnswer ∧
    ((submitHandler " leopold2018 " true ⟨false⟩ ⟨[]⟩).alerts = [] ∧
      (submitHandler " leopold2018 " true ⟨false⟩ ⟨[]⟩).event.defaultPrevented
        = !true) :=
  ⟨by decide,
    captcha_match_no_alert_only_validity_suppresses " leopold2018 " true ⟨[]⟩
      (by decide)⟩

/-- C6: if the capability probe returns false, the ready callback attaches
no handler (given none was attached before), and a subsequent submit is
pure native submission: no alert, no prevented default, no class change. -/
theorem no_capability_native_submit
    (doc : Document) (captchaVal : String) (formValid : Bool)
    (hcap : (hasHtml5Validation doc).1 = false)
    (hinit : doc.form.handlerAttached = false) :
    (readyCallback doc).form.handlerAttached = false ∧
    dispatchSubmit (readyCallback doc) captchaVal formValid
      = { alerts := [], doc := doc, nativeSubmissionProceeds := true } := by
  unfold hasHtml5Validation createElementInput at hcap
  simp only at hcap
  have hready : readyCallback doc = doc := by
    unfold readyCallback hasHtml5Validation createElementInput
    simp [hcap]
  rw [hready]
  refine ⟨hinit, ?_⟩
  unfold dispatchSubmit
  rw [hinit]
  simp

/-- Witness for C6 on a document whose fresh input has no `checkValidity`
function. -/
theorem no_capability_native_submit_witness :
    ((hasHtml5Validation ⟨⟨"undefined"⟩, ⟨false, []⟩⟩).1 = false ∧
      (⟨⟨"undefined"⟩, ⟨false, []⟩⟩ : Document).form.handlerAttached = false) ∧
    ((readyCallback ⟨⟨"undefined"⟩, ⟨false, []⟩⟩).form.handlerAttached = false ∧
      dispatchSubmit (readyCallback ⟨⟨"undefined"⟩, ⟨false, []⟩⟩) "x" true
        = { alerts := [], doc := ⟨⟨"undefined"⟩, ⟨false, []⟩⟩,
            nativeSubmissionProceeds := true }) :=
  ⟨⟨by decide, by decide⟩,
    no_capability_native_submit ⟨⟨"undefined"⟩, ⟨false, []⟩⟩ "x" true
      (by decide) (by decide)⟩

/-- C7: classes are additive — every class present on the form before a
submit attempt is still present afterwards; the handler never removes a
class. -/
theorem classes_additive_never_removed
    (captchaVal : String) (formValid : Bool) (e : SubmitEvent) (form : FormState)
    (c : String) (h : c ∈ form.classes) :
    c ∈ (submitHandler captchaVal formValid e form).form.classes := by
  unfold submitHandler
  cases formValid <;> simp [mem_addClass_of_mem _ _ _ h]

/-- Witness for C7: a prior "invalid" class survives a later fully valid
submit attempt. -/
theorem classes_additive_never_removed_witness :
    "invalid" ∈ (⟨["invalid"]⟩ : FormState).classes ∧
    "invalid" ∈ (submitHandler "leopold2018" true ⟨false⟩ ⟨["invalid"]⟩).form.classes :=
  ⟨by decide,
    classes_additive_never_removed "leopold2018" true ⟨false⟩ ⟨["invalid"]⟩
      "invalid" (by decide)⟩

/-- C8: in the checkbox variant, an unchecked checkbox fires the
informational alert, and the checkbox check never prevents the default
action: for every checkbox state the event ends up prevented exactly when
native validity fails, so submission proceeds whenever validity passed. -/
theorem checkbox_unchecked_alert_without_suppression
    (formValid : Bool) (form : FormState) :
    payCashReminderMsg ∈ (submitHandlerV2 false formValid ⟨false⟩ form).alerts ∧
    (∀ checked : Bool,
      (submitHandlerV2 checked formValid ⟨false⟩ form).event.defaultPrevented
        = !formValid) := by
  constructor
  · unfold submitHandlerV2
    cases formValid <;> simp
  · intro checked
    unfold submitHandlerV2
    cases formValid <;> simp [preventDefault]

/-- C9: `hasHtml5Validation` is a pure predicate — it leaves the document
(and so the form and all other observable state) unchanged, and returns
true exactly when the freshly constructed input element exposes
`checkValidity` as a function. -/
theorem hasHtml5Validation_pure (doc : Document) :
    (hasHtml5Validation doc).2 = doc ∧
    ((hasHtml5Validation doc).1 = true ↔
      doc.freshInput.checkValidityTypeof = "function") := by
  unfold hasHtml5Validation createElementInput
  simp

/-- C10: on every handler invocation exactly one class — "valid" if native
validity holds, "invalid" otherwise — is handed to `addClass`, determined
solely by the validity result and independent of the captcha value; in
particular a natively valid submit suppressed by a captcha mismatch still
gets the "valid" class. -/
theorem one_class_added_determined_by_validity
    (captchaVal : String) (formValid : Bool) (e : SubmitEvent) (form : FormState) :
    ((submitHandler captchaVal formValid e form).form.classes
        = addClass form.classes (if formValid then "valid" else "invalid")) ∧
    "valid" ∈ (submitHandler captchaVal true e form).form.classes := by
  constructor
  · unfold submitHandler
    cases formValid <;> simp
  · unfold submitHandler
    simp [mem_addClass_self]

end ConferenceRegistration
